import Mathlib

/-!
Shallow embedding of the `statistics_backend` repository
(`backend.py`, `rainfall.py`, `energy_utils.py`, `temperature_utils.py`).

Calendar dates are modelled structurally; monetary-free metric values are
modelled as `ℚ` (Python floats appear only in threshold comparisons and
sums/divisions, which the claims treat arithmetically); timestamps inside a
day are modelled as `Int` instants on a linear time line.  Persisted JSON
files are modelled as `Option (List _)` (absent file = `none`), and the
InfluxDB query result as an explicit argument (an `Except` when the claim
concerns query failure).
-/

/-- A calendar date, as produced by `datetime.date`. -/
structure Date where
  year : Nat
  month : Nat
  day : Nat
deriving DecidableEq, Repr

/-- Lexicographic (chronological) strict order on dates. -/
def Date.Lt (a b : Date) : Prop :=
  a.year < b.year ∨ (a.year = b.year ∧
    (a.month < b.month ∨ (a.month = b.month ∧ a.day < b.day)))

/-- Chronological non-strict order on dates. -/
def Date.Le (a b : Date) : Prop := Date.Lt a b ∨ a = b

instance (a b : Date) : Decidable (Date.Lt a b) := by
  unfold Date.Lt; infer_instance

instance (a b : Date) : Decidable (Date.Le a b) := by
  unfold Date.Le; infer_instance

theorem Date.Lt.not_le_of_lt {a b : Date} (h1 : Date.Lt a b) (h2 : Date.Le b a) : False := by
  obtain ⟨ay, am, ad⟩ := a
  obtain ⟨by_, bm, bd⟩ := b
  rcases h2 with h2 | h2
  · simp only [Date.Lt] at h1 h2
    omega
  · cases h2
    simp only [Date.Lt] at h1
    omega

/-- `calendar.monthrange(year, month)[1]`: the number of days in a month. -/
def daysInMonth (year month : Nat) : Nat :=
  if month = 2 then (if (year % 4 = 0 ∧ year % 100 ≠ 0) ∨ year % 400 = 0 then 29 else 28)
  else if month = 4 ∨ month = 6 ∨ month = 9 ∨ month = 11 then 30
  else 31

/-- Lookup in an insertion-ordered dictionary (Python `dict` access). -/
def dictGet? {κ β : Type} [DecidableEq κ] (k : κ) : List (κ × β) → Option β
  | [] => none
  | (k', v) :: rest => if k' = k then some v else dictGet? k rest

/-- Assignment in an insertion-ordered dictionary (Python `d[k] = v`):
replaces in place if the key exists, else appends. -/
def dictInsert {κ β : Type} [DecidableEq κ] (k : κ) (v : β) : List (κ × β) → List (κ × β)
  | [] => [(k, v)]
  | (k', v') :: rest =>
      if k' = k then (k, v) :: rest else (k', v') :: dictInsert k v rest

theorem dictGet?_insert_self {κ β : Type} [DecidableEq κ] (k : κ) (v : β)
    (m : List (κ × β)) : dictGet? k (dictInsert k v m) = some v := by
  induction m with
  | nil => simp [dictInsert, dictGet?]
  | cons p rest ih =>
    obtain ⟨k', v'⟩ := p
    by_cases h : k' = k
    · simp [dictInsert, dictGet?, h]
    · simp [dictInsert, dictGet?, h, ih]

theorem dictGet?_insert_ne {κ β : Type} [DecidableEq κ] {k k' : κ} (v : β)
    (m : List (κ × β)) (h : k' ≠ k) :
    dictGet? k' (dictInsert k v m) = dictGet? k' m := by
  induction m with
  | nil => simp [dictInsert, dictGet?, Ne.symm h]
  | cons p rest ih =>
    obtain ⟨k'', v''⟩ := p
    by_cases hk : k'' = k
    · subst hk
      simp [dictInsert, dictGet?, Ne.symm h]
    · by_cases hk' : k'' = k'
      · simp [dictInsert, dictGet?, hk, hk', h]
      · simp [dictInsert, dictGet?, hk, hk', ih]

/-- `itertools.groupby`: partition a list into maximal runs of consecutive
elements sharing a key, keeping both orders. -/
def groupRuns {α κ : Type} [DecidableEq κ] (key : α → κ) : List α → List (κ × List α)
  | [] => []
  | a :: as =>
    match groupRuns key as with
    | [] => [(key a, [a])]
    | (k, g) :: rest =>
        if key a = k then (key a, a :: g) :: rest
        else (key a, [a]) :: (k, g) :: rest

theorem groupRuns_ne_nil {α κ : Type} [DecidableEq κ] (key : α → κ)
    (a : α) (as : List α) : groupRuns key (a :: as) ≠ [] := by
  unfold groupRuns
  cases groupRuns key as with
  | nil => simp
  | cons p rest =>
    obtain ⟨k, g⟩ := p
    by_cases h : key a = k <;> simp [h]

/-- One persisted day of rainfall data (`{"date": ..., "rainfall_mm": ...}`). -/
structure RainRec where
  date : Date
  rainfall_mm : ℚ
deriving DecidableEq, Repr

/-- One persisted day of energy data (`{"date": ..., "consumption": ...}`). -/
structure EnergyRec where
  date : Date
  consumption : ℚ
deriving DecidableEq, Repr

/-- The pure core of `RainfallBackend.update_data`: given the loaded prior
sequence, the fetched `(day, dailyRainfallSum)` samples and today's date,
produce the `(cache_data_file, output_data_file)` contents.  A fetched total
is appended only when it exceeds the `0.28` tip-noise threshold; the cache
blob keeps every record, the canonical blob drops any record dated today. -/
def RainfallBackend.update_data (prior : List RainRec)
    (fetched : List (Date × ℚ)) (today : Date) : List RainRec × List RainRec :=
  let rainfall_data :=
    prior ++ (fetched.filter (fun p => decide ((28 : ℚ)/100 < p.2))).map
      (fun p => { date := p.1, rainfall_mm := p.2 })
  (rainfall_data, rainfall_data.filter (fun r => decide (r.date ≠ today)))

/-- The pure core of `EnergyBackend.update_data`: fetched daily consumption
values may be null (`none`); null days are dropped in the output loop.  The
pair is `(cache_data_file, output_data_file)` contents. -/
def EnergyBackend.update_data (prior : List EnergyRec)
    (fetched : List (Date × Option ℚ)) (today : Date) : List EnergyRec × List EnergyRec :=
  let consumption_data : List (Date × Option ℚ) :=
    prior.map (fun r => (r.date, some r.consumption)) ++ fetched
  let output_data := consumption_data.filterMap
    (fun p => p.2.map (fun v => ({ date := p.1, consumption := v } : EnergyRec)))
  (output_data, output_data.filter (fun r => decide (r.date ≠ today)))

/-- Key of the monthly rollup dictionary: the formatted string
`" MM/YYYY"` is modelled structurally, plus the `"current"` alias. -/
inductive MKey : Type
  | ym (year month : Nat)
  | current
deriving DecidableEq, Repr

/-- Key of the yearly rollup dictionary: the year string plus `"current"`. -/
inductive YKey : Type
  | y (year : Nat)
  | current
deriving DecidableEq, Repr

/-- One value of the monthly rainfall dictionary. -/
structure RainMonthEntry where
  total : ℚ
  days : Nat
  average : ℚ
  complete_month : Bool
deriving DecidableEq, Repr

/-- One value of the monthly energy dictionary (no `days` field). -/
structure EnergyMonthEntry where
  total : ℚ
  average : ℚ
  complete_month : Bool
deriving DecidableEq, Repr

/-- One value of the yearly rainfall dictionary. -/
structure RainYearEntry where
  total : ℚ
  days : Nat
  average : ℚ
  complete_year : Bool
deriving DecidableEq, Repr

/-- The `"current"` placeholder written when this month has no rain records. -/
def zeroRainMonthEntry : RainMonthEntry :=
  { total := 0, days := 0, average := 0, complete_month := false }

/-- The `"current"` placeholder written when this month has no energy records. -/
def zeroEnergyMonthEntry : EnergyMonthEntry :=
  { total := 0, average := 0, complete_month := false }

/-- The `"current"` placeholder written when this year has no rain records. -/
def zeroRainYearEntry : RainYearEntry :=
  { total := 0, days := 0, average := 0, complete_year := false }

/-- One iteration of the `for (year, month), daily_data in groupby(...)` loop
of `RainfallBackend.get_monthly_endpoint_data`.  Note that the `"current"`
aliasing is nested inside the loop body, exactly as in the source. -/
def RainfallBackend.month_step (today : Date)
    (acc : List (MKey × RainMonthEntry)) (g : (Nat × Nat) × List RainRec) :
    List (MKey × RainMonthEntry) :=
  let year := g.1.1
  let month := g.1.2
  let daily_rainfall_list := g.2.map (fun r => r.rainfall_mm)
  let days_in_month : Nat :=
    if month = today.month ∧ year = today.year then today.day
    else daysInMonth year month
  let average_rainfall := daily_rainfall_list.sum / (days_in_month : ℚ)
  let acc1 := dictInsert (MKey.ym year month)
    { total := daily_rainfall_list.sum
      days := daily_rainfall_list.length
      average := average_rainfall
      complete_month := decide (month ≠ today.month) || decide (year ≠ today.year) } acc
  match dictGet? (MKey.ym today.year today.month) acc1 with
  | some e => dictInsert MKey.current e acc1
  | none => dictInsert MKey.current zeroRainMonthEntry acc1

/-- The monthly rainfall rollup as a pure function of the daily sequence. -/
def RainfallBackend.monthly_of (today : Date) (data : List RainRec) :
    List (MKey × RainMonthEntry) :=
  (groupRuns (fun r => (r.date.year, r.date.month)) data).foldl
    (RainfallBackend.month_step today) []

/-- One iteration of the month loop of
`EnergyBackend.get_monthly_endpoint_data`.  The partial-month denominator
check compares only `month == today.month` (not the year), as in the source. -/
def EnergyBackend.month_step (today : Date)
    (acc : List (MKey × EnergyMonthEntry)) (g : (Nat × Nat) × List EnergyRec) :
    List (MKey × EnergyMonthEntry) :=
  let year := g.1.1
  let month := g.1.2
  let daily_energy_list := g.2.map (fun r => r.consumption)
  let days_in_month : Nat :=
    if month = today.month then today.day
    else daysInMonth year month
  let average_energy := daily_energy_list.sum / (days_in_month : ℚ)
  dictInsert (MKey.ym year month)
    { total := daily_energy_list.sum
      average := average_energy
      complete_month := decide (month ≠ today.month) || decide (year ≠ today.year) } acc

/-- The monthly energy rollup as a pure function of the daily sequence; its
`"current"` aliasing happens once, after the loop. -/
def EnergyBackend.monthly_of (today : Date) (data : List EnergyRec) :
    List (MKey × EnergyMonthEntry) :=
  let monthly_energy := (groupRuns (fun r => (r.date.year, r.date.month)) data).foldl
    (EnergyBackend.month_step today) []
  match dictGet? (MKey.ym today.year today.month) monthly_energy with
  | some e => dictInsert MKey.current e monthly_energy
  | none => dictInsert MKey.current zeroEnergyMonthEntry monthly_energy

/-- One iteration of the fold of `RainfallBackend.get_yearly_endpoint_data`
over the monthly dictionary: `"current"` entries are skipped, a year entry is
created on first sight (fixing `complete_year` then), and `total`/`days` are
accumulated with `average` recomputed after each fold step. -/
def RainfallBackend.year_step (today : Date)
    (acc : List (YKey × RainYearEntry)) (kv : MKey × RainMonthEntry) :
    List (YKey × RainYearEntry) :=
  match kv.1 with
  | MKey.current => acc
  | MKey.ym year _month =>
    let cur := (dictGet? (YKey.y year) acc).getD
      { total := 0, days := 0, average := 0, complete_year := decide (year ≠ today.year) }
    let total := cur.total + kv.2.total
    let days := cur.days + kv.2.days
    dictInsert (YKey.y year)
      { total := total, days := days, average := total / (days : ℚ)
        complete_year := cur.complete_year } acc

/-- The yearly rainfall rollup as a pure function of the monthly rollup. -/
def RainfallBackend.yearly_of (today : Date)
    (monthly_rainfall : List (MKey × RainMonthEntry)) : List (YKey × RainYearEntry) :=
  let yearly_rainfall := monthly_rainfall.foldl (RainfallBackend.year_step today) []
  match dictGet? (YKey.y today.year) yearly_rainfall with
  | some e => dictInsert YKey.current e yearly_rainfall
  | none => dictInsert YKey.current zeroRainYearEntry yearly_rainfall

/-- The persisted file pair of the rainfall backend
(`output_data_file` = canonical, `cache_data_file` = cache); `none` models an
absent file. -/
structure RainStore where
  output_data_file : Option (List RainRec)
  cache_data_file : Option (List RainRec)
deriving DecidableEq

/-- The persisted file pair of the energy backend. -/
structure EnergyStore where
  output_data_file : Option (List EnergyRec)
  cache_data_file : Option (List EnergyRec)
deriving DecidableEq

/-- `Backend.get_data`: load the CACHE file (`self.cache_data_file`); an
absent file makes the read fail. -/
def Backend.get_data {ρ : Type} (cache_data_file : Option (List ρ)) :
    Except Unit (List ρ) :=
  match cache_data_file with
  | none => Except.error ()
  | some data => Except.ok data

/-- `RainfallBackend.get_daily_endpoint_data`: reshape each cached record and
return the list reversed. -/
def RainfallBackend.get_daily_endpoint_data (st : RainStore) :
    Except Unit (List RainRec) :=
  (Backend.get_data st.cache_data_file).map (fun data =>
    (data.map (fun d => ({ date := d.date, rainfall_mm := d.rainfall_mm } : RainRec))).reverse)

/-- `EnergyBackend.get_daily_endpoint_data`: reshape each cached record and
return the list reversed. -/
def EnergyBackend.get_daily_endpoint_data (st : EnergyStore) :
    Except Unit (List EnergyRec) :=
  (Backend.get_data st.cache_data_file).map (fun data =>
    (data.map (fun d => ({ date := d.date, consumption := d.consumption } : EnergyRec))).reverse)

/-- `RainfallBackend.get_monthly_endpoint_data`: the monthly rollup computed
over `self.get_data()`, i.e. over the cache file's sequence. -/
def RainfallBackend.get_monthly_endpoint_data (st : RainStore) (today : Date) :
    Except Unit (List (MKey × RainMonthEntry)) :=
  (Backend.get_data st.cache_data_file).map (RainfallBackend.monthly_of today)

/-- `EnergyBackend.get_monthly_endpoint_data`: the monthly rollup computed
over `self.get_data()`, i.e. over the cache file's sequence. -/
def EnergyBackend.get_monthly_endpoint_data (st : EnergyStore) (today : Date) :
    Except Unit (List (MKey × EnergyMonthEntry)) :=
  (Backend.get_data st.cache_data_file).map (EnergyBackend.monthly_of today)

/-- `RainfallBackend.get_yearly_endpoint_data`: folds the dictionary returned
by `get_monthly_endpoint_data` (hence also cache-derived). -/
def RainfallBackend.get_yearly_endpoint_data (st : RainStore) (today : Date) :
    Except Unit (List (YKey × RainYearEntry)) :=
  (RainfallBackend.get_monthly_endpoint_data st today).map (RainfallBackend.yearly_of today)

/-- Error taxonomy of a refresh run: indexing an empty loaded list
(`rainfall_data[-1]` on `[]`), or a failing InfluxDB query. -/
inductive RefreshError : Type
  | indexError
  | sourceUnavailable
deriving DecidableEq, Repr

/-- `update_data`'s watermark step for rainfall: absent file falls back to the
metric epoch 2022-08-01 with an empty prior list; an existing file that parses
to an empty list fails on `rainfall_data[-1]`. -/
def RainfallBackend.load_watermark (output_data_file : Option (List RainRec)) :
    Except RefreshError (List RainRec × Date) :=
  match output_data_file with
  | none => Except.ok ([], ⟨2022, 8, 1⟩)
  | some rainfall_data =>
    match rainfall_data.getLast? with
    | none => Except.error RefreshError.indexError
    | some last => Except.ok (rainfall_data, last.date)

/-- `update_data`'s watermark step for energy: same shape, same epoch. -/
def EnergyBackend.load_watermark (output_data_file : Option (List EnergyRec)) :
    Except RefreshError (List EnergyRec × Date) :=
  match output_data_file with
  | none => Except.ok ([], ⟨2022, 8, 1⟩)
  | some consumption_data =>
    match consumption_data.getLast? with
    | none => Except.error RefreshError.indexError
    | some last => Except.ok (consumption_data, last.date)

/-- The whole of `RainfallBackend.update_data` as one state transformer: load
the canonical file, compute the watermark, run the query (its outcome is the
`fetch` argument), and only then write both blobs.  The result is the store
after the call; a raised error leaves the store untouched. -/
def RainfallBackend.update_data_run (st : RainStore) (today : Date)
    (fetch : Except Unit (List (Date × ℚ))) : Except RefreshError RainStore :=
  match RainfallBackend.load_watermark st.output_data_file with
  | Except.error e => Except.error e
  | Except.ok (prior, _latest_date) =>
    match fetch with
    | Except.error _ => Except.error RefreshError.sourceUnavailable
    | Except.ok samples =>
      let pair := RainfallBackend.update_data prior samples today
      Except.ok { output_data_file := some pair.2, cache_data_file := some pair.1 }

/-- The whole of `EnergyBackend.update_data` as one state transformer. -/
def EnergyBackend.update_data_run (st : EnergyStore) (today : Date)
    (fetch : Except Unit (List (Date × Option ℚ))) : Except RefreshError EnergyStore :=
  match EnergyBackend.load_watermark st.output_data_file with
  | Except.error e => Except.error e
  | Except.ok (prior, _latest_date) =>
    match fetch with
    | Except.error _ => Except.error RefreshError.sourceUnavailable
    | Except.ok samples =>
      let pair := EnergyBackend.update_data prior samples today
      Except.ok { output_data_file := some pair.2, cache_data_file := some pair.1 }

/-- The store observed after calling rainfall `update_data`: unchanged when
the call raises (the two `dump_json` writes are the last statements). -/
def RainfallBackend.post_state (st : RainStore) (today : Date)
    (fetch : Except Unit (List (Date × ℚ))) : RainStore :=
  match RainfallBackend.update_data_run st today fetch with
  | Except.ok st' => st'
  | Except.error _ => st

/-- The store observed after calling energy `update_data`. -/
def EnergyBackend.post_state (st : EnergyStore) (today : Date)
    (fetch : Except Unit (List (Date × Option ℚ))) : EnergyStore :=
  match EnergyBackend.update_data_run st today fetch with
  | Except.ok st' => st'
  | Except.error _ => st

/-- One parsed day of temperature data as held in `temperature_data`:
sunrise/sunset instants and the two classified reading lists. -/
structure TempDay where
  sunrise : Int
  sunset : Int
  daytime : List ℚ
  nighttime : List ℚ
deriving DecidableEq, Repr

/-- The inner loop of `TemperatureBackend.update_data` for one day's samples:
drop faulted readings (`value < -140`), then classify by timestamp against
sunrise/sunset.  Returns `(daytime, nighttime)` in sample order. -/
def TemperatureBackend.clean_day (sunrise sunset : Int) :
    List (Int × ℚ) → List ℚ × List ℚ
  | [] => ([], [])
  | p :: rest =>
    let r := TemperatureBackend.clean_day sunrise sunset rest
    if p.2 < -140 then r
    else if p.1 < sunrise then (r.1, p.2 :: r.2)
    else if sunrise ≤ p.1 ∧ p.1 ≤ sunset then (p.2 :: r.1, r.2)
    else if sunset < p.1 then (r.1, p.2 :: r.2)
    else r

/-- One value of the daily temperature endpoint dictionary. -/
structure TempMinMax where
  sunrise : Int
  sunset : Int
  average : ℚ
  min : ℚ
  max : ℚ
  day_average : ℚ
  day_min : ℚ
  day_max : ℚ
  night_average : ℚ
  night_min : ℚ
  night_max : ℚ
deriving DecidableEq, Repr

/-- `statistics.mean`: fails (raises) on an empty list. -/
def meanQ (l : List ℚ) : Option ℚ :=
  if l = [] then none else some (l.sum / (l.length : ℚ))

/-- Python `min` over a list: fails on an empty list. -/
def minQ (l : List ℚ) : Option ℚ := l.min?

/-- Python `max` over a list: fails on an empty list. -/
def maxQ (l : List ℚ) : Option ℚ := l.max?

/-- The per-day body of `TemperatureBackend.get_daily_endpoint_data`:
reduce the combined/day/night reading lists; any empty list makes the whole
call fail. -/
def TemperatureBackend.day_entry (daily_data : TempDay) : Option TempMinMax := do
  let all_day := daily_data.daytime ++ daily_data.nighttime
  let average ← meanQ all_day
  let mn ← minQ all_day
  let mx ← maxQ all_day
  let day_average ← meanQ daily_data.daytime
  let day_min ← minQ daily_data.daytime
  let day_max ← maxQ daily_data.daytime
  let night_average ← meanQ daily_data.nighttime
  let night_min ← minQ daily_data.nighttime
  let night_max ← maxQ daily_data.nighttime
  pure { sunrise := daily_data.sunrise, sunset := daily_data.sunset
         average := average, min := mn, max := mx
         day_average := day_average, day_min := day_min, day_max := day_max
         night_average := night_average, night_min := night_min, night_max := night_max }

/-- `TemperatureBackend.get_daily_endpoint_data`: walk the stored
date-keyed dictionary in its own (insertion) order, reducing each day; no
reversal happens anywhere. -/
def TemperatureBackend.get_daily_endpoint_data :
    List (Date × TempDay) → Option (List (Date × TempMinMax))
  | [] => some []
  | (day, daily_data) :: rest => do
    let e ← TemperatureBackend.day_entry daily_data
    let r ← TemperatureBackend.get_daily_endpoint_data rest
    pure ((day, e) :: r)

theorem filter_ne_date_suffix {α : Type} (dkey : α → Date) (today : Date) :
    ∀ l : List α, List.Pairwise (fun a b => Date.Lt (dkey a) (dkey b)) l →
    (∀ a ∈ l, Date.Le (dkey a) today) →
    ∃ t, l = l.filter (fun a => decide (dkey a ≠ today)) ++ t ∧
      (t = [] ∨ ∃ a, t = [a] ∧ dkey a = today) := by
  intro l
  induction l with
  | nil => intro _ _; exact ⟨[], by simp, Or.inl rfl⟩
  | cons a l ih =>
    intro hp hb
    rcases List.pairwise_cons.mp hp with ⟨ha, hp'⟩
    by_cases hat : dkey a = today
    · have hl : l = [] := by
        cases l with
        | nil => rfl
        | cons b l' =>
          exfalso
          have h1 : Date.Lt (dkey a) (dkey b) := ha b (by simp)
          have h2 : Date.Le (dkey b) today := hb b (by simp)
          rw [hat] at h1
          exact Date.Lt.not_le_of_lt h1 h2
      subst hl
      refine ⟨[a], ?_, Or.inr ⟨a, rfl, hat⟩⟩
      simp [List.filter, hat]
    · obtain ⟨t, hteq, htp⟩ := ih hp' (fun x hx => hb x (List.mem_cons_of_mem a hx))
      refine ⟨t, ?_, htp⟩
      rw [List.filter_cons_of_pos (by simp [hat]), List.cons_append]
      exact congrArg (List.cons a) hteq

/-- C2: after every `update_data`, the canonical blob never holds a record
dated today, and — given the data-model invariant that the combined sequence
is strictly date-increasing with no date beyond today — the cache blob equals
the canonical blob plus at most one today-dated record appended at the end.
Stated for both the rainfall and the energy backend. -/
theorem claim_C2_partition_invariant :
    (∀ prior fetched today,
      (∀ r ∈ (RainfallBackend.update_data prior fetched today).2, r.date ≠ today) ∧
      (List.Pairwise (fun a b : RainRec => Date.Lt a.date b.date)
          (RainfallBackend.update_data prior fetched today).1 →
        (∀ r ∈ (RainfallBackend.update_data prior fetched today).1, Date.Le r.date today) →
        ∃ t, (RainfallBackend.update_data prior fetched today).1 =
            (RainfallBackend.update_data prior fetched today).2 ++ t ∧
          (t = [] ∨ ∃ r, t = [r] ∧ r.date = today))) ∧
    (∀ prior fetched today,
      (∀ r ∈ (EnergyBackend.update_data prior fetched today).2, r.date ≠ today) ∧
      (List.Pairwise (fun a b : EnergyRec => Date.Lt a.date b.date)
          (EnergyBackend.update_data prior fetched today).1 →
        (∀ r ∈ (EnergyBackend.update_data prior fetched today).1, Date.Le r.date today) →
        ∃ t, (EnergyBackend.update_data prior fetched today).1 =
            (EnergyBackend.update_data prior fetched today).2 ++ t ∧
          (t = [] ∨ ∃ r, t = [r] ∧ r.date = today))) := by
  constructor
  · intro prior fetched today
    constructor
    · intro r hr
      simp only [RainfallBackend.update_data, List.mem_filter, decide_eq_true_eq] at hr
      exact hr.2
    · intro hp hb
      exact filter_ne_date_suffix (fun r : RainRec => r.date) today
        (RainfallBackend.update_data prior fetched today).1 hp hb
  · intro prior fetched today
    constructor
    · intro r hr
      simp only [EnergyBackend.update_data, List.mem_filter, decide_eq_true_eq] at hr
      exact hr.2
    · intro hp hb
      exact filter_ne_date_suffix (fun r : EnergyRec => r.date) today
        (EnergyBackend.update_data prior fetched today).1 hp hb

theorem claim_C2_partition_invariant_witness :
    ∃ t, (RainfallBackend.update_data [⟨⟨2025,10,10⟩,1⟩] [(⟨2025,10,12⟩,1)] ⟨2025,10,12⟩).1 =
        (RainfallBackend.update_data [⟨⟨2025,10,10⟩,1⟩] [(⟨2025,10,12⟩,1)] ⟨2025,10,12⟩).2 ++ t ∧
      (t = [] ∨ ∃ r, t = [r] ∧ r.date = ⟨2025,10,12⟩) := by
  have h : (RainfallBackend.update_data [⟨⟨2025,10,10⟩,1⟩] [(⟨2025,10,12⟩,1)] ⟨2025,10,12⟩).1 =
      [⟨⟨2025,10,10⟩,1⟩, ⟨⟨2025,10,12⟩,1⟩] := by
    norm_num [RainfallBackend.update_data, List.filter]
  exact (claim_C2_partition_invariant.1 [⟨⟨2025,10,10⟩,1⟩] [(⟨2025,10,12⟩,1)] ⟨2025,10,12⟩).2
    (by rw [h]; decide) (by rw [h]; decide)

/-- C4: during a rainfall refresh a fetched daily total enters the sequence
iff it strictly exceeds 0.28; concretely, a total of exactly 0.28 is dropped
while 0.2800001 is kept. -/
theorem claim_C4_rainfall_threshold :
    (∀ prior fetched today (d : Date) (v : ℚ),
      ((⟨d, v⟩ : RainRec) ∈ (RainfallBackend.update_data prior fetched today).1 ↔
        (⟨d, v⟩ : RainRec) ∈ prior ∨ ((d, v) ∈ fetched ∧ (28 : ℚ)/100 < v))) ∧
    (RainfallBackend.update_data []
        [(⟨2025,10,11⟩, 28/100), (⟨2025,10,12⟩, 2800001/10000000)] ⟨2025,10,13⟩).1 =
      [⟨⟨2025,10,12⟩, 2800001/10000000⟩] := by
  constructor
  · intro prior fetched today d v
    simp only [RainfallBackend.update_data, List.mem_append, List.mem_map, List.mem_filter,
      decide_eq_true_eq, RainRec.mk.injEq]
    constructor
    · rintro (h | ⟨⟨pd, pv⟩, ⟨hmem, hgt⟩, hd, hv⟩)
      · exact Or.inl h
      · subst hd; subst hv; exact Or.inr ⟨hmem, hgt⟩
    · rintro (h | ⟨hmem, hgt⟩)
      · exact Or.inl h
      · exact Or.inr ⟨(d, v), ⟨hmem, hgt⟩, rfl, rfl⟩
  · norm_num [RainfallBackend.update_data, List.filter]

/-- C7: the temperature cleaner drops every sample valued strictly below
-140 and classifies each retained sample as daytime exactly when its
timestamp lies in the closed interval from sunrise to sunset; boundary
samples at sunrise/sunset are daytime and a -150-valued sample vanishes. -/
theorem claim_C7_temperature_classification :
    (∀ sunrise sunset (samples : List (Int × ℚ)),
      TemperatureBackend.clean_day sunrise sunset samples =
        ((samples.filter (fun p => decide ((-140 : ℚ) ≤ p.2) &&
            (decide (sunrise ≤ p.1) && decide (p.1 ≤ sunset)))).map Prod.snd,
         (samples.filter (fun p => decide ((-140 : ℚ) ≤ p.2) &&
            (decide (p.1 < sunrise) || decide (sunset < p.1)))).map Prod.snd)) ∧
    TemperatureBackend.clean_day 100 200 [(100, 5), (200, 6), (99, 7), (201, 8), (150, -150)] =
      ([5, 6], [7, 8]) := by
  constructor
  · intro sunrise sunset samples
    induction samples with
    | nil => rfl
    | cons p rest ih =>
      obtain ⟨t, v⟩ := p
      by_cases h1 : v < -140
      · have h1' : ¬((-140 : ℚ) ≤ v) := not_le.mpr h1
        simp [TemperatureBackend.clean_day, h1, h1', ih]
      · have h1' : (-140 : ℚ) ≤ v := not_lt.mp h1
        by_cases h2 : t < sunrise
        · have h2' : ¬(sunrise ≤ t) := not_le.mpr h2
          simp [TemperatureBackend.clean_day, h1, h1', h2, h2', ih]
        · have h2' : sunrise ≤ t := not_lt.mp h2
          by_cases h3 : t ≤ sunset
          · have h3' : ¬(sunset < t) := not_lt.mpr h3
            simp [TemperatureBackend.clean_day, List.filter_cons, h1, h1', h2, h2', h3, h3', ih]
          · have h3' : sunset < t := not_le.mp h3
            simp [TemperatureBackend.clean_day, List.filter_cons, h1, h1', h2, h2', h3, h3', ih]
  · norm_num [TemperatureBackend.clean_day]

/-- C9: if the InfluxDB query raises during `update_data`, the refresh
aborts and both persisted blobs are exactly as before the call, for both the
rainfall and the energy backend. -/
theorem claim_C9_refresh_abort_preserves_state :
    (∀ st today e, RainfallBackend.post_state st today (Except.error e) = st) ∧
    (∀ st today e, EnergyBackend.post_state st today (Except.error e) = st) := by
  constructor
  · intro st today e
    unfold RainfallBackend.post_state RainfallBackend.update_data_run
    cases RainfallBackend.load_watermark st.output_data_file with
    | error e' => rfl
    | ok pr => obtain ⟨prior, latest⟩ := pr; rfl
  · intro st today e
    unfold EnergyBackend.post_state EnergyBackend.update_data_run
    cases EnergyBackend.load_watermark st.output_data_file with
    | error e' => rfl
    | ok pr => obtain ⟨prior, latest⟩ := pr; rfl

/-- C10: a refresh whose canonical file exists but parses to an empty list
fails with an index error regardless of what the query would return, while an
absent canonical file falls back to the 2022-08-01 epoch and succeeds. -/
theorem claim_C10_empty_canonical_fails :
    (∀ cache today fetch,
      RainfallBackend.update_data_run ⟨some [], cache⟩ today fetch =
        Except.error RefreshError.indexError) ∧
    (∀ cache today fetch,
      EnergyBackend.update_data_run ⟨some [], cache⟩ today fetch =
        Except.error RefreshError.indexError) ∧
    RainfallBackend.load_watermark none = Except.ok ([], ⟨2022, 8, 1⟩) ∧
    EnergyBackend.load_watermark none = Except.ok ([], ⟨2022, 8, 1⟩) ∧
    (∀ cache today samples,
      RainfallBackend.update_data_run ⟨none, cache⟩ today (Except.ok samples) =
        Except.ok { output_data_file := some (RainfallBackend.update_data [] samples today).2
                    cache_data_file := some (RainfallBackend.update_data [] samples today).1 }) ∧
    (∀ cache today samples,
      EnergyBackend.update_data_run ⟨none, cache⟩ today (Except.ok samples) =
        Except.ok { output_data_file := some (EnergyBackend.update_data [] samples today).2
                    cache_data_file := some (EnergyBackend.update_data [] samples today).1 }) :=
  ⟨fun _ _ _ => rfl, fun _ _ _ => rfl, rfl, rfl, fun _ _ _ => rfl, fun _ _ _ => rfl⟩

theorem energy_filterMap_roundtrip (prior : List EnergyRec) :
    (prior.map (fun r => (r.date, some r.consumption))).filterMap
      (fun p => p.2.map (fun v => ({ date := p.1, consumption := v } : EnergyRec))) = prior := by
  induction prior with
  | nil => rfl
  | cons r rest ih => simp [List.filterMap_cons, ih]

/-- C8: a refresh that fetches no new samples rewrites the canonical blob
unchanged, and — whenever the loaded canonical sequence respects the
invariant of holding no today-dated record — a second such refresh writes the
same two blobs as the first, for both rainfall and energy. -/
theorem claim_C8_idempotent_refresh :
    (∀ (prior : List RainRec) today,
      (RainfallBackend.update_data
          ((RainfallBackend.update_data prior [] today).2) [] today).2 =
        (RainfallBackend.update_data prior [] today).2 ∧
      ((∀ r ∈ prior, r.date ≠ today) →
        RainfallBackend.update_data
            ((RainfallBackend.update_data prior [] today).2) [] today =
          RainfallBackend.update_data prior [] today)) ∧
    (∀ (prior : List EnergyRec) today,
      (EnergyBackend.update_data
          ((EnergyBackend.update_data prior [] today).2) [] today).2 =
        (EnergyBackend.update_data prior [] today).2 ∧
      ((∀ r ∈ prior, r.date ≠ today) →
        EnergyBackend.update_data
            ((EnergyBackend.update_data prior [] today).2) [] today =
          EnergyBackend.update_data prior [] today)) := by
  constructor
  · intro prior today
    have hbase : RainfallBackend.update_data prior [] today =
        (prior, prior.filter (fun r => decide (r.date ≠ today))) := by
      simp [RainfallBackend.update_data]
    have hfilt : (prior.filter (fun r => decide (r.date ≠ today))).filter
        (fun r => decide (r.date ≠ today)) =
        prior.filter (fun r => decide (r.date ≠ today)) :=
      List.filter_eq_self.mpr (fun a ha => (List.mem_filter.mp ha).2)
    constructor
    · rw [hbase]
      simp only [RainfallBackend.update_data, List.filter_nil, List.map_nil, List.append_nil]
      exact hfilt
    · intro h
      have hid : prior.filter (fun r => decide (r.date ≠ today)) = prior :=
        List.filter_eq_self.mpr (fun a ha => decide_eq_true (h a ha))
      rw [hbase, hid, hbase, hid]
  · intro prior today
    have hbase : EnergyBackend.update_data prior [] today =
        (prior, prior.filter (fun r => decide (r.date ≠ today))) := by
      simp only [EnergyBackend.update_data, List.append_nil]
      rw [energy_filterMap_roundtrip]
    have hfilt : (prior.filter (fun r => decide (r.date ≠ today))).filter
        (fun r => decide (r.date ≠ today)) =
        prior.filter (fun r => decide (r.date ≠ today)) :=
      List.filter_eq_self.mpr (fun a ha => (List.mem_filter.mp ha).2)
    constructor
    · rw [hbase]
      simp only [EnergyBackend.update_data, List.append_nil]
      rw [energy_filterMap_roundtrip]
      exact hfilt
    · intro h
      have hid : prior.filter (fun r => decide (r.date ≠ today)) = prior :=
        List.filter_eq_self.mpr (fun a ha => decide_eq_true (h a ha))
      rw [hbase, hid, hbase, hid]

theorem claim_C8_idempotent_refresh_witness :
    RainfallBackend.update_data
        ((RainfallBackend.update_data [⟨⟨2025,1,1⟩, 5⟩] [] ⟨2025,10,12⟩).2) [] ⟨2025,10,12⟩ =
      RainfallBackend.update_data [⟨⟨2025,1,1⟩, 5⟩] [] ⟨2025,10,12⟩ :=
  (claim_C8_idempotent_refresh.1 [⟨⟨2025,1,1⟩, 5⟩] ⟨2025,10,12⟩).2 (by decide)

theorem rain_month_fold_current (today : Date) :
    ∀ (gs : List ((Nat × Nat) × List RainRec)) (acc : List (MKey × RainMonthEntry)),
      gs ≠ [] →
      dictGet? MKey.current (gs.foldl (RainfallBackend.month_step today) acc) =
        some ((dictGet? (MKey.ym today.year today.month)
          (gs.foldl (RainfallBackend.month_step today) acc)).getD zeroRainMonthEntry) := by
  intro gs
  induction gs with
  | nil => intro acc h; exact absurd rfl h
  | cons g rest ih =>
    intro acc _
    cases rest with
    | cons g2 rest2 =>
      rw [List.foldl_cons]
      exact ih (RainfallBackend.month_step today acc g) (by simp)
    | nil =>
      rw [List.foldl_cons, List.foldl_nil]
      unfold RainfallBackend.month_step
      dsimp only
      split
      next e he =>
        rw [dictGet?_insert_self,
          dictGet?_insert_ne _ _ (nofun : MKey.ym today.year today.month ≠ MKey.current), he]
        rfl
      next he =>
        rw [dictGet?_insert_self,
          dictGet?_insert_ne _ _ (nofun : MKey.ym today.year today.month ≠ MKey.current), he]
        rfl

/-- C5 counterexample: for the empty daily sequence the rainfall monthly
rollup mapping is empty, so it holds no `"current"` key at all (the aliasing
sits inside the month loop, whose body never runs). -/
theorem claim_C5_counterexample :
    RainfallBackend.monthly_of ⟨2025, 10, 12⟩ [] = [] ∧
    dictGet? MKey.current (RainfallBackend.monthly_of ⟨2025, 10, 12⟩ []) = none :=
  ⟨rfl, rfl⟩

/-- C5 (amended): the energy monthly mapping always contains `"current"`,
bound to the active month's entry when present and otherwise to the zero
placeholder; the rainfall monthly mapping does so for every NON-EMPTY daily
sequence, while the empty sequence yields an empty mapping with no
`"current"` key. -/
theorem claim_C5_current_alias :
    (∀ today (data : List RainRec), data ≠ [] →
      dictGet? MKey.current (RainfallBackend.monthly_of today data) =
        some ((dictGet? (MKey.ym today.year today.month)
          (RainfallBackend.monthly_of today data)).getD zeroRainMonthEntry)) ∧
    (∀ today (data : List EnergyRec),
      dictGet? MKey.current (EnergyBackend.monthly_of today data) =
        some ((dictGet? (MKey.ym today.year today.month)
          (EnergyBackend.monthly_of today data)).getD zeroEnergyMonthEntry)) := by
  constructor
  · intro today data hne
    unfold RainfallBackend.monthly_of
    apply rain_month_fold_current
    cases data with
    | nil => exact absurd rfl hne
    | cons r rest => exact groupRuns_ne_nil _ r rest
  · intro today data
    unfold EnergyBackend.monthly_of
    dsimp only
    split
    next e he =>
      rw [dictGet?_insert_self,
        dictGet?_insert_ne _ _ (nofun : MKey.ym today.year today.month ≠ MKey.current), he]
      rfl
    next he =>
      rw [dictGet?_insert_self,
        dictGet?_insert_ne _ _ (nofun : MKey.ym today.year today.month ≠ MKey.current), he]
      rfl

theorem claim_C5_current_alias_witness :
    dictGet? MKey.current (RainfallBackend.monthly_of ⟨2025, 10, 12⟩ [⟨⟨2025, 9, 3⟩, 2⟩]) =
      some ((dictGet? (MKey.ym 2025 10)
        (RainfallBackend.monthly_of ⟨2025, 10, 12⟩ [⟨⟨2025, 9, 3⟩, 2⟩])).getD zeroRainMonthEntry) :=
  claim_C5_current_alias.1 ⟨2025, 10, 12⟩ [⟨⟨2025, 9, 3⟩, 2⟩] (by simp)

/-- C1 counterexample: `get_monthly_endpoint_data` computes over the cache
file's sequence (which includes today's in-progress record), and on a state
whose cache strictly extends the canonical sequence by today's record that
result differs from the rollup of the canonical sequence — refuting the claim
that the rollup reads use the canonical daily sequence. -/
theorem claim_C1_counterexample :
    RainfallBackend.get_monthly_endpoint_data
        ⟨some [⟨⟨2025,10,1⟩, 5⟩], some [⟨⟨2025,10,1⟩, 5⟩, ⟨⟨2025,10,12⟩, 3⟩]⟩ ⟨2025,10,12⟩ =
      Except.ok (RainfallBackend.monthly_of ⟨2025,10,12⟩
        [⟨⟨2025,10,1⟩, 5⟩, ⟨⟨2025,10,12⟩, 3⟩]) ∧
    RainfallBackend.monthly_of ⟨2025,10,12⟩ [⟨⟨2025,10,1⟩, 5⟩, ⟨⟨2025,10,12⟩, 3⟩] ≠
      RainfallBackend.monthly_of ⟨2025,10,12⟩ [⟨⟨2025,10,1⟩, 5⟩] := by
  constructor
  · rfl
  · norm_num [RainfallBackend.monthly_of, RainfallBackend.month_step, groupRuns,
      dictInsert, dictGet?, zeroRainMonthEntry, List.foldl]
    decide

/-- C1 (amended): the monthly and yearly rollup read operations compute
their aggregates from the CACHE sequence (the one including today's
in-progress record, loaded by `Backend.get_data`), not from the canonical
sequence; energy's monthly read does the same. -/
theorem claim_C1_rollups_read_cache :
    (∀ st today data, st.cache_data_file = some data →
      RainfallBackend.get_monthly_endpoint_data st today =
        Except.ok (RainfallBackend.monthly_of today data) ∧
      RainfallBackend.get_yearly_endpoint_data st today =
        Except.ok (RainfallBackend.yearly_of today (RainfallBackend.monthly_of today data))) ∧
    (∀ st today data, st.cache_data_file = some data →
      EnergyBackend.get_monthly_endpoint_data st today =
        Except.ok (EnergyBackend.monthly_of today data)) := by
  constructor
  · intro st today data h
    constructor
    · simp [RainfallBackend.get_monthly_endpoint_data, Backend.get_data, h, Except.map]
    · simp [RainfallBackend.get_yearly_endpoint_data,
        RainfallBackend.get_monthly_endpoint_data, Backend.get_data, h, Except.map]
  · intro st today data h
    simp [EnergyBackend.get_monthly_endpoint_data, Backend.get_data, h, Except.map]

theorem claim_C1_rollups_read_cache_witness :
    RainfallBackend.get_monthly_endpoint_data ⟨some [], some [⟨⟨2025,10,1⟩, 5⟩]⟩ ⟨2025,10,12⟩ =
      Except.ok (RainfallBackend.monthly_of ⟨2025,10,12⟩ [⟨⟨2025,10,1⟩, 5⟩]) ∧
    RainfallBackend.get_yearly_endpoint_data ⟨some [], some [⟨⟨2025,10,1⟩, 5⟩]⟩ ⟨2025,10,12⟩ =
      Except.ok (RainfallBackend.yearly_of ⟨2025,10,12⟩
        (RainfallBackend.monthly_of ⟨2025,10,12⟩ [⟨⟨2025,10,1⟩, 5⟩])) :=
  claim_C1_rollups_read_cache.1 ⟨some [], some [⟨⟨2025,10,1⟩, 5⟩]⟩ ⟨2025,10,12⟩
    [⟨⟨2025,10,1⟩, 5⟩] rfl

theorem temp_endpoint_keys :
    ∀ (stored : List (Date × TempDay)) (res : List (Date × TempMinMax)),
      TemperatureBackend.get_daily_endpoint_data stored = some res →
      res.map Prod.fst = stored.map Prod.fst := by
  intro stored
  induction stored with
  | nil =>
    intro res h
    simp only [TemperatureBackend.get_daily_endpoint_data, Option.some.injEq] at h
    subst h
    rfl
  | cons p rest ih =>
    intro res h
    obtain ⟨day, daily_data⟩ := p
    simp only [TemperatureBackend.get_daily_endpoint_data, Option.bind_eq_bind,
      Option.bind_eq_some] at h
    obtain ⟨e, he, h⟩ := h
    obtain ⟨r, hr, h⟩ := h
    cases h
    simp [ih r hr]

theorem rain_map_shape_id (l : List RainRec) :
    l.map (fun d => ({ date := d.date, rainfall_mm := d.rainfall_mm } : RainRec)) = l := by
  induction l with
  | nil => rfl
  | cons r rest ih => simp [ih]

theorem energy_map_shape_id (l : List EnergyRec) :
    l.map (fun d => ({ date := d.date, consumption := d.consumption } : EnergyRec)) = l := by
  induction l with
  | nil => rfl
  | cons r rest ih => simp [ih]

/-- C6 counterexample: the temperature daily endpoint returns its per-day
entries in the stored (chronological insertion) order, not reversed: with two
stored days the result lists the earlier day first. -/
theorem claim_C6_counterexample :
    ∃ res, TemperatureBackend.get_daily_endpoint_data
        [(⟨2025,1,1⟩, ⟨360, 1080, [10], [5]⟩), (⟨2025,1,2⟩, ⟨360, 1080, [10], [5]⟩)] =
          some res ∧
      res.map Prod.fst = [⟨2025,1,1⟩, ⟨2025,1,2⟩] ∧
      ([⟨2025,1,1⟩, ⟨2025,1,2⟩] : List Date) ≠ [⟨2025,1,2⟩, ⟨2025,1,1⟩] := by
  exact ⟨_, rfl, rfl, by decide⟩

/-- C6 (amended): the rainfall and energy daily endpoints return the cached
daily records reversed (most recent first), while the temperature daily
endpoint keeps the stored per-day mapping in its own insertion order with no
reversal. -/
theorem claim_C6_daily_endpoint_order :
    (∀ st data, st.cache_data_file = some data →
      RainfallBackend.get_daily_endpoint_data st = Except.ok data.reverse) ∧
    (∀ st data, st.cache_data_file = some data →
      EnergyBackend.get_daily_endpoint_data st = Except.ok data.reverse) ∧
    (∀ stored res, TemperatureBackend.get_daily_endpoint_data stored = some res →
      res.map Prod.fst = stored.map Prod.fst) := by
  refine ⟨?_, ?_, temp_endpoint_keys⟩
  · intro st data h
    simp [RainfallBackend.get_daily_endpoint_data, Backend.get_data, h, Except.map,
      rain_map_shape_id]
  · intro st data h
    simp [EnergyBackend.get_daily_endpoint_data, Backend.get_data, h, Except.map,
      energy_map_shape_id]

theorem claim_C6_daily_endpoint_order_witness :
    RainfallBackend.get_daily_endpoint_data
        ⟨some [], some [⟨⟨2025,10,1⟩, 5⟩, ⟨⟨2025,10,2⟩, 3⟩]⟩ =
      Except.ok [⟨⟨2025,10,2⟩, 3⟩, ⟨⟨2025,10,1⟩, 5⟩] :=
  claim_C6_daily_endpoint_order.1 ⟨some [], some [⟨⟨2025,10,1⟩, 5⟩, ⟨⟨2025,10,2⟩, 3⟩]⟩
    [⟨⟨2025,10,1⟩, 5⟩, ⟨⟨2025,10,2⟩, 3⟩] rfl

/-- C3: the energy monthly rollup's partial-month denominator check compares
only the month number, so on 2025-10-15 a COMPLETED month (October 2024,
31 days, marked `complete_month`) is averaged over today's day-of-month 15
(150/15 = 10) instead of its 31 calendar days; the rainfall rollup, which
also compares the year, divides the same data by 31 as the claim requires. -/
theorem claim_C3_energy_denominator :
    dictGet? (MKey.ym 2024 10) (EnergyBackend.monthly_of ⟨2025,10,15⟩ [⟨⟨2024,10,1⟩, 150⟩]) =
      some { total := 150, average := 10, complete_month := true } ∧
    daysInMonth 2024 10 = 31 ∧
    (10 : ℚ) ≠ 150 / 31 ∧
    dictGet? (MKey.ym 2024 10) (RainfallBackend.monthly_of ⟨2025,10,15⟩ [⟨⟨2024,10,1⟩, 150⟩]) =
      some { total := 150, days := 1, average := 150/31, complete_month := true } := by
  refine ⟨?_, by decide, by norm_num, ?_⟩
  · norm_num [EnergyBackend.monthly_of, EnergyBackend.month_step, groupRuns,
      dictInsert, dictGet?, zeroEnergyMonthEntry, List.foldl]
  · norm_num [RainfallBackend.monthly_of, RainfallBackend.month_step, groupRuns,
      dictInsert, dictGet?, zeroRainMonthEntry, List.foldl, daysInMonth]
